import Mathlib

/-!
Shallow embedding of the teleoperated control loop in `src/src/opcontrol.c`
(with the earlier revision kept as `src/unnamed/part_000` where a claim
refers to it).  Hardware side effects — `motorSet`, `digitalWrite`,
`delay`, `delayMicroseconds`, busy-wait NOPs — are modelled as events
appended to a trace, in the exact order the C code issues them.  Loop-local
state (`idealLiftPos`, `trayIsCurrentlyFullPower`, `debugButtonPressed`)
is threaded explicitly.
-/

namespace Cortex

/-- One observable hardware action: a motor power write (`motorSet`),
a millisecond delay (`delay`), a digital pin write (`digitalWrite`, with
`true` = HIGH), a microsecond delay (`delayMicroseconds`), or a run of
busy-wait NOP instructions. -/
inductive Event where
  | motor : Nat → Int → Event
  | delay : Nat → Event
  | pin : Bool → Event
  | delayUs : Nat → Event
  | nops : Nat → Event
deriving DecidableEq, Repr

-- Motor-port constants from the `#define` block of opcontrol.c.
def LEFT_MOTOR_FRONT : Nat := 5
def LEFT_MOTOR_BACK : Nat := 4
def RIGHT_MOTOR_FRONT : Nat := 2
def RIGHT_MOTOR_BACK : Nat := 3
def TRAY : Nat := 6
def RIGHT_ROLLER : Nat := 7
def LEFT_ROLLER : Nat := 8
def RIGHT_ARM : Nat := 9
def LEFT_ARM : Nat := 10

/-- `#define BACKUP_SPEED 70`. -/
def BACKUP_SPEED : Int := 70

/-- `#define IDEAL_ARM_INCREMENT 30`. -/
def IDEAL_ARM_INCREMENT : Int := 30

/-- `#define ARM_LOWER_BOUND 0`. -/
def ARM_LOWER_BOUND : Int := 0

/-- `#define ARM_UPPER_BOUND 4000`. -/
def ARM_UPPER_BOUND : Int := 4000

/-- `setMotorPower(left, right)`: writes `left` to the two left drive
ports and `right * -1` to the two right drive ports (the right motors
face the opposite direction). -/
def setMotorPowerTrace (left right : Int) : List Event :=
  [Event.motor LEFT_MOTOR_FRONT left,
   Event.motor LEFT_MOTOR_BACK left,
   Event.motor RIGHT_MOTOR_FRONT (right * -1),
   Event.motor RIGHT_MOTOR_BACK (right * -1)]

/-- The drift deadband applied to each stick reading:
`if (x < 15 && x > -15) x = 0;`. -/
def deadband (x : Int) : Int :=
  if x < 15 ∧ x > -15 then 0 else x

/-- Models `turningPower /= 1.4` on a C `int`: the reading is divided by
the double literal `1.4` and the quotient is truncated toward zero on
assignment back to `int`.  Over the whole 32-bit range the correctly
rounded double division by `1.4` truncates exactly like truncated
division of `5 * t` by `7` (the literal `1.4` is `7/5` up to a relative
error below `2 ^ (-52)`, far too small to move the quotient across an
integer), so the embedding uses `Int.tdiv`, which truncates toward zero. -/
def scaleTurn (t : Int) : Int :=
  Int.tdiv (t * 5) 7

/-- The drive-mapper portion of one loop iteration: scale the turn axis,
deadband both axes, form `leftPower = forward + turning` and
`rightPower = forward - turning`, and call `setMotorPower`. -/
def driveBlock (forwardRaw turnRaw : Int) : List Event :=
  let turningPower := deadband (scaleTurn turnRaw)
  let forwardPower := deadband forwardRaw
  let leftPower := forwardPower + turningPower
  let rightPower := forwardPower - turningPower
  setMotorPowerTrace leftPower rightPower

/-- The roller dispatch: intake (button 6-up) at mirrored full power,
release (button 6-down) at mirrored 60, otherwise both zero. -/
def rollerBlock (btn6Up btn6Down : Bool) : List Event :=
  if btn6Up then
    [Event.motor RIGHT_ROLLER (-127), Event.motor LEFT_ROLLER 127]
  else if btn6Down then
    [Event.motor RIGHT_ROLLER 60, Event.motor LEFT_ROLLER (-60)]
  else
    [Event.motor RIGHT_ROLLER 0, Event.motor LEFT_ROLLER 0]

/-- The tray buttons of one cycle: 5-up (raise), 5-down (lower), or
neither. -/
inductive TrayButton where
  | raise
  | lower
  | idle
deriving DecidableEq, Repr

/-- The tray block of `src/src/opcontrol.c`: while raise is held, emit
full power when `trayIsCurrentlyFullPower == 0` (and set the counter to
1), otherwise emit 40 and increment the counter, wrapping to 0 past 3.
While lower is held emit -127; otherwise emit 0.  Neither the lower nor
the idle branch touches the counter.  Returns the emitted tray power and
the new counter value. -/
def trayStep (b : TrayButton) (trayIsCurrentlyFullPower : Int) : Int × Int :=
  match b with
  | TrayButton.raise =>
    if trayIsCurrentlyFullPower = 0 then
      (127, 1)
    else
      (40, if trayIsCurrentlyFullPower + 1 > 3 then 0 else trayIsCurrentlyFullPower + 1)
  | TrayButton.lower => (-127, trayIsCurrentlyFullPower)
  | TrayButton.idle => (0, trayIsCurrentlyFullPower)

/-- The tray block of the earlier revision `src/unnamed/part_000`,
restricted to its `liftPowerScale` counter (the emitted power, a ramp
computed from the counter, is not needed by any claim): while raise is
held the counter increments up to a cap of 60; in both the lower and the
idle branches it is reset to 0. -/
def trayStepOldScale (b : TrayButton) (liftPowerScale : Int) : Int :=
  match b with
  | TrayButton.raise => if liftPowerScale < 60 then liftPowerScale + 1 else liftPowerScale
  | TrayButton.lower => 0
  | TrayButton.idle => 0

/-- The arm-target events a cycle can apply to `idealLiftPos`: the
increase nudge (button 7-up), the decrease nudge (button 7-down), the
reset (button 7-left), or no arm button. -/
inductive ArmEvent where
  | inc
  | dec
  | reset
  | idle
deriving DecidableEq, Repr

/-- One mutation of `idealLiftPos` as written in `operatorControl`:
the increase branch stores `ARM_UPPER_BOUND` when the nudged value would
exceed it, the decrease branch stores `ARM_LOWER_BOUND` when the nudged
value would fall below it, and the reset branch stores
`ARM_LOWER_BOUND` unconditionally.  The clamped value is what gets
stored, so no out-of-range value is ever written. -/
def armStep (e : ArmEvent) (idealLiftPos : Int) : Int :=
  match e with
  | ArmEvent.inc =>
    if idealLiftPos + IDEAL_ARM_INCREMENT > ARM_UPPER_BOUND then
      ARM_UPPER_BOUND
    else
      idealLiftPos + IDEAL_ARM_INCREMENT
  | ArmEvent.dec =>
    if idealLiftPos - IDEAL_ARM_INCREMENT < ARM_LOWER_BOUND then
      ARM_LOWER_BOUND
    else
      idealLiftPos - IDEAL_ARM_INCREMENT
  | ArmEvent.reset => ARM_LOWER_BOUND
  | ArmEvent.idle => idealLiftPos

/-- `idealLiftPos` after a sequence of arm events, starting from the
initial value 0 that `operatorControl` declares. -/
def applyArmEvents (es : List ArmEvent) : Int :=
  es.foldl (fun p e => armStep e p) 0

/-- The up/down nudge applied before the motor write each cycle
(`joystickGetDigital(…, 7, JOY_UP)` takes priority over `JOY_DOWN`). -/
def armNudge (btn7Up btn7Down : Bool) (idealLiftPos : Int) : Int :=
  armStep (if btn7Up then ArmEvent.inc else if btn7Down then ArmEvent.dec else ArmEvent.idle)
    idealLiftPos

/-- Models `int proportional = (idealLiftPos - currentPos) * -0.1;`:
the difference is multiplied by the double literal `-0.1` and truncated
toward zero on assignment to `int`.  Over the whole 32-bit range this
truncation agrees with truncated division of the negated difference by
10 (the literal `-0.1` differs from `-1/10` by a relative error below
`2 ^ (-52)`, never enough to move the product across an integer), so the
embedding uses `Int.tdiv`, which truncates toward zero. -/
def proportional (idealLiftPos currentPos : Int) : Int :=
  Int.tdiv ((idealLiftPos - currentPos) * (-1)) 10

/-- The two arm-motor writes issued every cycle from the current target
and the calibrated potentiometer reading. -/
def armBlock (idealLiftPos currentPos : Int) : List Event :=
  [Event.motor RIGHT_ARM (proportional idealLiftPos currentPos),
   Event.motor LEFT_ARM (proportional idealLiftPos currentPos)]

/-- The tray ramp of `dropOffCubes`:
`for (int i = 127; i >= 30; i -= 2)` issuing `motorSet(TRAY, i); delay(20);`.
The loop counter starts at 127 and stays nonnegative, so it is carried as
a `Nat`; matching on `i + 2` realises the `i -= 2` step structurally
(for `i < 2` the guard `30 <= i` fails and the loop body never runs, in
both the C code and the embedding). -/
def trayRampFrom : Nat → List Event
  | 0 => []
  | 1 => []
  | (i + 2) =>
    if 30 ≤ i + 2 then
      Event.motor TRAY ((i : Int) + 2) :: Event.delay 20 :: trayRampFrom i
    else
      []

/-- The full event trace of one `dropOffCubes()` invocation, in program
order: tray ramp, tray off, 2000 ms dwell, forward bump, 200 ms, reverse
bump, 200 ms, stop, 2000 ms dwell, rollers out while backing up, 700 ms,
rollers off and drivetrain stopped. -/
def dropOffCubesTrace : List Event :=
  trayRampFrom 127
    ++ [Event.motor TRAY 0, Event.delay 2000]
    ++ setMotorPowerTrace 60 60 ++ [Event.delay 200]
    ++ setMotorPowerTrace (-60) (-60) ++ [Event.delay 200]
    ++ setMotorPowerTrace 0 0
    ++ [Event.delay 2000]
    ++ [Event.motor RIGHT_ROLLER 80, Event.motor LEFT_ROLLER (-80)]
    ++ setMotorPowerTrace (BACKUP_SPEED * -1) (BACKUP_SPEED * -1)
    ++ [Event.delay 700]
    ++ [Event.motor RIGHT_ROLLER 0, Event.motor LEFT_ROLLER 0]
    ++ setMotorPowerTrace 0 0

/-- The pulse loop of `attemptLight`: `for (char i = 0; i < 48; i++)`
writes HIGH, one NOP (`T0H`), LOW, eighty NOPs (`T0L`).  The body does
not read `i`, so the loop is embedded by recursion on the number of
iterations left. -/
def lightPulses : Nat → List Event
  | 0 => []
  | (n + 1) =>
    Event.pin true :: Event.nops 1 :: Event.pin false :: Event.nops 80 :: lightPulses n

/-- The full pin trace of one `attemptLight()` invocation: line LOW,
51 us reset delay, line HIGH, 48 pulse pairs, line HIGH. -/
def attemptLightTrace : List Event :=
  [Event.pin false, Event.delayUs 51, Event.pin true]
    ++ lightPulses 48
    ++ [Event.pin true]

/-- The joystick sample of one cycle: the two analog axes, the digital
buttons the loop reads, and the calibrated potentiometer reading
(`analogReadCalibrated(ARM_POTENTIOMETER)`). -/
structure Input where
  forwardPower : Int
  turningPower : Int
  btn6Up : Bool
  btn6Down : Bool
  btn5Up : Bool
  btn5Down : Bool
  btn7Up : Bool
  btn7Down : Bool
  btn7Left : Bool
  btn8Down : Bool
  btn8Right : Bool
  btn8Up : Bool
  pot : Int
deriving DecidableEq, Repr

/-- The loop-local state of `operatorControl` that survives from one
cycle to the next.  At task start all three are zero-initialised
(`idealLiftPos = 0`, `trayIsCurrentlyFullPower = 0`,
`debugButtonPressed = false`). -/
structure LoopState where
  idealLiftPos : Int
  trayIsCurrentlyFullPower : Int
  debugButtonPressed : Bool
deriving DecidableEq, Repr

/-- The tray button held this cycle, with 5-up taking priority as in the
`if / else if / else` chain. -/
def trayButtonOf (inp : Input) : TrayButton :=
  if inp.btn5Up then TrayButton.raise
  else if inp.btn5Down then TrayButton.lower
  else TrayButton.idle

/-- The "back up and roll out" block guarded by button 8-down. -/
def backupBlock (btn8Down : Bool) : List Event :=
  if btn8Down then
    [Event.motor RIGHT_ROLLER 80, Event.motor LEFT_ROLLER (-80),
     Event.motor LEFT_MOTOR_FRONT (BACKUP_SPEED * -1),
     Event.motor LEFT_MOTOR_BACK (BACKUP_SPEED * -1),
     Event.motor RIGHT_MOTOR_FRONT BACKUP_SPEED,
     Event.motor RIGHT_MOTOR_BACK BACKUP_SPEED]
  else []

/-- One iteration of the `while (1)` body of `operatorControl` in
`src/src/opcontrol.c`: drive mapping, rollers, tray, arm nudge, arm
motor writes, arm reset, backup block, dropoff macro, the
debug-button/light edge detector, and the closing 20 ms delay.  Returns
the next loop state and the trace of hardware events the iteration
emits, in program order. -/
def cycleStep (s : LoopState) (inp : Input) : LoopState × List Event :=
  let tray := trayStep (trayButtonOf inp) s.trayIsCurrentlyFullPower
  let ideal1 := armNudge inp.btn7Up inp.btn7Down s.idealLiftPos
  let ideal2 := if inp.btn7Left then ARM_LOWER_BOUND else ideal1
  let debug1 := if ¬s.debugButtonPressed ∧ inp.btn8Up then true else s.debugButtonPressed
  let lightEvents1 : List Event :=
    if ¬s.debugButtonPressed ∧ inp.btn8Up then [Event.motor 1 127] else []
  let debug2 := if debug1 ∧ ¬inp.btn8Up then false else debug1
  let lightEvents2 : List Event :=
    if debug1 ∧ ¬inp.btn8Up then Event.motor 1 0 :: attemptLightTrace else []
  (⟨ideal2, tray.2, debug2⟩,
    driveBlock inp.forwardPower inp.turningPower
      ++ rollerBlock inp.btn6Up inp.btn6Down
      ++ [Event.motor TRAY tray.1]
      ++ armBlock ideal1 inp.pot
      ++ backupBlock inp.btn8Down
      ++ (if inp.btn8Right then dropOffCubesTrace else [])
      ++ lightEvents1
      ++ lightEvents2
      ++ [Event.delay 20])

/-- The event trace one cycle emits. -/
def cycleTrace (s : LoopState) (inp : Input) : List Event :=
  (cycleStep s inp).2

/-- The powers written to motor port `port` by a trace, in order. -/
def motorCommands (port : Nat) (tr : List Event) : List Int :=
  tr.filterMap fun e =>
    match e with
    | Event.motor p v => if p = port then some v else none
    | _ => none

/-- The last power written to motor port `port` by a trace, if any. -/
def finalCommand (port : Nat) (tr : List Event) : Option Int :=
  (motorCommands port tr).getLast?

/-- The millisecond delays a trace performs, in order. -/
def delays (tr : List Event) : List Nat :=
  tr.filterMap fun e =>
    match e with
    | Event.delay n => some n
    | _ => none

/-- The digital levels a trace writes to the light pin, in order. -/
def pinWrites (tr : List Event) : List Bool :=
  tr.filterMap fun e =>
    match e with
    | Event.pin b => some b
    | _ => none

/-- The dropoff sequence as the spec's scenario describes it: a ramp of
strictly decreasing tray powers at 20 ms per step, tray off, a 2000 ms
dwell, a forward pulse and a reverse pulse of equal 200 ms duration then
stop, a second 2000 ms dwell, rollers outward while the drivetrain
reverses for 700 ms, and every touched actuator commanded to zero at the
end. -/
def dropOffSpecTrace : List Event :=
  ((List.range 49).map fun k => [Event.motor TRAY (127 - 2 * (k : Int)), Event.delay 20]).flatten
    ++ [Event.motor TRAY 0, Event.delay 2000]
    ++ [Event.motor LEFT_MOTOR_FRONT 60, Event.motor LEFT_MOTOR_BACK 60,
        Event.motor RIGHT_MOTOR_FRONT (-60), Event.motor RIGHT_MOTOR_BACK (-60),
        Event.delay 200]
    ++ [Event.motor LEFT_MOTOR_FRONT (-60), Event.motor LEFT_MOTOR_BACK (-60),
        Event.motor RIGHT_MOTOR_FRONT 60, Event.motor RIGHT_MOTOR_BACK 60,
        Event.delay 200]
    ++ [Event.motor LEFT_MOTOR_FRONT 0, Event.motor LEFT_MOTOR_BACK 0,
        Event.motor RIGHT_MOTOR_FRONT 0, Event.motor RIGHT_MOTOR_BACK 0,
        Event.delay 2000]
    ++ [Event.motor RIGHT_ROLLER 80, Event.motor LEFT_ROLLER (-80),
        Event.motor LEFT_MOTOR_FRONT (-70), Event.motor LEFT_MOTOR_BACK (-70),
        Event.motor RIGHT_MOTOR_FRONT 70, Event.motor RIGHT_MOTOR_BACK 70,
        Event.delay 700]
    ++ [Event.motor RIGHT_ROLLER 0, Event.motor LEFT_ROLLER 0,
        Event.motor LEFT_MOTOR_FRONT 0, Event.motor LEFT_MOTOR_BACK 0,
        Event.motor RIGHT_MOTOR_FRONT 0, Event.motor RIGHT_MOTOR_BACK 0]

/-- The light emission as the spec's scenario describes it: line low,
the calibrated reset delay, line high, exactly 48 pulse pairs — high
with a short busy-wait, then low with a much longer busy-wait — and the
line driven high at the end. -/
def lightSpecTrace : List Event :=
  [Event.pin false, Event.delayUs 51, Event.pin true]
    ++ (List.replicate 48 [Event.pin true, Event.nops 1, Event.pin false, Event.nops 80]).flatten
    ++ [Event.pin true]

/-!  Helper lemmas shared by the claim theorems. -/

theorem motorCommands_nil (p : Nat) : motorCommands p [] = [] := rfl

theorem motorCommands_append (p : Nat) (l1 l2 : List Event) :
    motorCommands p (l1 ++ l2) = motorCommands p l1 ++ motorCommands p l2 := by
  simp [motorCommands]

theorem motorCommands_motor_cons (p q : Nat) (v : Int) (t : List Event) :
    motorCommands p (Event.motor q v :: t) =
      if q = p then v :: motorCommands p t else motorCommands p t := by
  simp only [motorCommands, List.filterMap_cons]
  split <;> simp_all

theorem motorCommands_delay_cons (p : Nat) (n : Nat) (t : List Event) :
    motorCommands p (Event.delay n :: t) = motorCommands p t := by
  simp [motorCommands, List.filterMap_cons]

theorem motorCommands_pin_cons (p : Nat) (b : Bool) (t : List Event) :
    motorCommands p (Event.pin b :: t) = motorCommands p t := by
  simp [motorCommands, List.filterMap_cons]

/-- Truncated division by 10 in terms of Euclidean division, by sign of
the dividend. -/
theorem tdiv_ten (a : Int) : Int.tdiv a 10 = if 0 ≤ a then a / 10 else -((-a) / 10) := by
  split
  · exact Int.tdiv_eq_ediv (by omega) (by norm_num)
  · have h : (0 : Int) ≤ -a := by omega
    have h2 := Int.neg_tdiv (-a) 10
    simp only [neg_neg] at h2
    rw [h2, Int.tdiv_eq_ediv h (by norm_num)]

/-- The truncated product with -0.1 rewritten as truncated division of
the opposite difference by 10. -/
theorem proportional_eq_tdiv (idealLiftPos currentPos : Int) :
    proportional idealLiftPos currentPos = Int.tdiv (currentPos - idealLiftPos) 10 := by
  unfold proportional
  rw [show (idealLiftPos - currentPos) * (-1) = currentPos - idealLiftPos by ring]

/-- Each arm-target mutation keeps the target inside the configured
bounds whenever it starts inside them. -/
theorem armStep_bounds (e : ArmEvent) (p : Int)
    (h1 : ARM_LOWER_BOUND ≤ p) (h2 : p ≤ ARM_UPPER_BOUND) :
    ARM_LOWER_BOUND ≤ armStep e p ∧ armStep e p ≤ ARM_UPPER_BOUND := by
  simp only [ARM_LOWER_BOUND, ARM_UPPER_BOUND] at h1 h2
  cases e <;>
    simp only [armStep, ARM_LOWER_BOUND, ARM_UPPER_BOUND, IDEAL_ARM_INCREMENT] <;>
    (try split) <;> omega

/-- Folding arm events preserves the bounds. -/
theorem foldl_armStep_bounds (es : List ArmEvent) :
    ∀ p : Int, ARM_LOWER_BOUND ≤ p → p ≤ ARM_UPPER_BOUND →
      ARM_LOWER_BOUND ≤ es.foldl (fun q e => armStep e q) p
      ∧ es.foldl (fun q e => armStep e q) p ≤ ARM_UPPER_BOUND := by
  induction es with
  | nil => intro p h1 h2; simpa using ⟨h1, h2⟩
  | cons e es ih =>
    intro p h1 h2
    simp only [List.foldl_cons]
    exact ih _ (armStep_bounds e p h1 h2).1 (armStep_bounds e p h1 h2).2

/-!  Claim theorems. -/

/-- Claim C1: for every sequence of per-cycle increase/decrease/reset
(or no-op) arm-button events, starting from the initial value 0, the arm
target `idealLiftPos` lies within the interval from `ARM_LOWER_BOUND` to
`ARM_UPPER_BOUND` after the whole sequence — and hence after every
event, since every prefix of a sequence is itself a sequence this
theorem covers.  The clamp happens before storing, so no out-of-range
value is ever stored even transiently. -/
theorem arm_target_always_in_bounds (es : List ArmEvent) :
    ARM_LOWER_BOUND ≤ applyArmEvents es ∧ applyArmEvents es ≤ ARM_UPPER_BOUND := by
  have h := foldl_armStep_bounds es 0 (by decide) (by decide)
  simpa [applyArmEvents] using h

/-- Claim C2, counterexample to the claim as stated: with desired angle
0 and measured angle 1 the measured angle strictly exceeds the desired
angle, yet the emitted command is 0, not positive — the integer
truncation kills gaps smaller than 10. -/
theorem arm_proportional_sign_counterexample :
    (0 : Int) < 1 ∧ proportional 0 1 = 0 ∧ ¬(0 < proportional 0 1) := by decide

/-- Claim C2 (amended): every cycle the same value is written to both
arm motors, namely the truncation toward zero of
(measuredAngle - desiredAngle) divided by 10 (gain 0.1); it is strictly
positive exactly when the measured angle exceeds the desired angle by at
least 10, strictly negative exactly when it falls below by at least 10,
and zero exactly when the gap is smaller than 10 in magnitude. -/
theorem arm_proportional_gain (idealLiftPos currentPos : Int) :
    armBlock idealLiftPos currentPos =
      [Event.motor RIGHT_ARM (proportional idealLiftPos currentPos),
       Event.motor LEFT_ARM (proportional idealLiftPos currentPos)]
    ∧ proportional idealLiftPos currentPos = Int.tdiv (currentPos - idealLiftPos) 10
    ∧ (0 < proportional idealLiftPos currentPos ↔ idealLiftPos + 10 ≤ currentPos)
    ∧ (proportional idealLiftPos currentPos < 0 ↔ currentPos + 10 ≤ idealLiftPos)
    ∧ (proportional idealLiftPos currentPos = 0 ↔
        -10 < currentPos - idealLiftPos ∧ currentPos - idealLiftPos < 10) := by
  refine ⟨rfl, proportional_eq_tdiv .., ?_, ?_, ?_⟩ <;>
    rw [proportional_eq_tdiv, tdiv_ten] <;> split <;> omega

/-- Claim C3: one invocation of the dropoff macro emits exactly the
spec's scenario: tray powers strictly decreasing from 127, then tray 0;
a 2000 ms dwell; a forward pulse and a reverse pulse of equal 200 ms
duration, then stop; a second 2000 ms dwell; rollers outward while the
drivetrain reverses for 700 ms; and the final command on the tray, both
rollers, and all four drive motors is zero. -/
theorem dropOffCubes_trace_correct :
    dropOffCubesTrace = dropOffSpecTrace
    ∧ List.Pairwise (fun a b => b < a) (motorCommands TRAY dropOffCubesTrace)
    ∧ (motorCommands TRAY dropOffCubesTrace).head? = some 127
    ∧ delays dropOffCubesTrace = List.replicate 49 20 ++ [2000, 200, 200, 2000, 700]
    ∧ motorCommands LEFT_MOTOR_FRONT dropOffCubesTrace = [60, -60, 0, -70, 0]
    ∧ motorCommands LEFT_MOTOR_BACK dropOffCubesTrace = [60, -60, 0, -70, 0]
    ∧ motorCommands RIGHT_MOTOR_FRONT dropOffCubesTrace = [-60, 60, 0, 70, 0]
    ∧ motorCommands RIGHT_MOTOR_BACK dropOffCubesTrace = [-60, 60, 0, 70, 0]
    ∧ motorCommands RIGHT_ROLLER dropOffCubesTrace = [80, 0]
    ∧ motorCommands LEFT_ROLLER dropOffCubesTrace = [-80, 0]
    ∧ finalCommand TRAY dropOffCubesTrace = some 0
    ∧ finalCommand LEFT_MOTOR_FRONT dropOffCubesTrace = some 0
    ∧ finalCommand LEFT_MOTOR_BACK dropOffCubesTrace = some 0
    ∧ finalCommand RIGHT_MOTOR_FRONT dropOffCubesTrace = some 0
    ∧ finalCommand RIGHT_MOTOR_BACK dropOffCubesTrace = some 0
    ∧ finalCommand RIGHT_ROLLER dropOffCubesTrace = some 0
    ∧ finalCommand LEFT_ROLLER dropOffCubesTrace = some 0 := by
  decide

/-- Claim C4, counterexample to the claim as stated: starting from the
zero-initialised counter, one raise cycle moves the counter to 1; a
following cycle with no tray button held leaves it at 1 (likewise a
cycle with only the lower button); and the next raise press therefore
emits the 40-power pulse, not the full-torque 127. -/
theorem tray_counter_counterexample :
    (trayStep TrayButton.raise 0).2 = 1
    ∧ (trayStep TrayButton.idle 1).2 = 1
    ∧ (trayStep TrayButton.lower 1).2 = 1
    ∧ (trayStep TrayButton.raise 1).1 = 40 := by decide

/-- Claim C4 (amended): in `src/src/opcontrol.c` the tray power-cycle
counter is left unchanged — not reset — by every cycle in which the
raise button is not held (whether the lower button is held or no tray
button is held), so a new press resumes the power pattern where it left
off; the earlier revision `src/unnamed/part_000` did reset its
`liftPowerScale` counter to 0 in both of those branches. -/
theorem tray_counter_reset_behavior (c : Int) :
    (trayStep TrayButton.lower c).2 = c
    ∧ (trayStep TrayButton.idle c).2 = c
    ∧ trayStepOldScale TrayButton.lower c = 0
    ∧ trayStepOldScale TrayButton.idle c = 0 :=
  ⟨rfl, rfl, rfl, rfl⟩

/-- Claim C5: whenever both raw axis readings are below the deadband
threshold in absolute value, the drive mapper commands zero on all four
drive motor ports. -/
theorem drive_deadband_zero (f t : Int) (hf : |f| < 15) (ht : |t| < 15) :
    driveBlock f t =
      [Event.motor LEFT_MOTOR_FRONT 0, Event.motor LEFT_MOTOR_BACK 0,
       Event.motor RIGHT_MOTOR_FRONT 0, Event.motor RIGHT_MOTOR_BACK 0] := by
  rw [abs_lt] at hf ht
  have h1 : deadband f = 0 := by simp only [deadband]; split <;> omega
  have h2 : deadband (scaleTurn t) = 0 := by
    obtain ⟨ht1, ht2⟩ := ht
    interval_cases t <;> decide
  simp [driveBlock, h1, h2, setMotorPowerTrace]

/-- Claim C5 witness: a concrete in-deadband pair. -/
theorem drive_deadband_zero_witness :
    |(7 : Int)| < 15 ∧ |(-12 : Int)| < 15
    ∧ driveBlock 7 (-12) =
      [Event.motor LEFT_MOTOR_FRONT 0, Event.motor LEFT_MOTOR_BACK 0,
       Event.motor RIGHT_MOTOR_FRONT 0, Event.motor RIGHT_MOTOR_BACK 0] :=
  ⟨by decide, by decide, drive_deadband_zero 7 (-12) (by decide) (by decide)⟩

/-- Claim C6: for every pair of raw readings, the left drive channel is
commanded the sum of the post-scale post-deadband values and the right
drive channel is commanded the negation of their difference. -/
theorem drive_channel_mapping (f t : Int) :
    driveBlock f t =
      [Event.motor LEFT_MOTOR_FRONT (deadband f + deadband (scaleTurn t)),
       Event.motor LEFT_MOTOR_BACK (deadband f + deadband (scaleTurn t)),
       Event.motor RIGHT_MOTOR_FRONT (-(deadband f - deadband (scaleTurn t))),
       Event.motor RIGHT_MOTOR_BACK (-(deadband f - deadband (scaleTurn t)))] := by
  simp [driveBlock, setMotorPowerTrace]

/-- Claim C7: an increase event applied when the arm target already sits
at the upper bound leaves the target unchanged — the nudge saturates
instead of wrapping or failing. -/
theorem arm_increase_saturates :
    armStep ArmEvent.inc ARM_UPPER_BOUND = ARM_UPPER_BOUND := by decide

set_option maxRecDepth 4000 in
/-- Claim C8: one light-emitter invocation drives the line low, holds it
low for the calibrated reset delay, drives it high, emits exactly 48
high/low pulse pairs (each high for a 1-NOP busy-wait and low for an
80-NOP busy-wait), and leaves the line high at the end. -/
theorem attemptLight_pulse_train :
    attemptLightTrace = lightSpecTrace
    ∧ attemptLightTrace.head? = some (Event.pin false)
    ∧ (pinWrites attemptLightTrace).getLast? = some true
    ∧ attemptLightTrace.getLast? = some (Event.pin true) := by decide

/-- Claim C9, counterexample to the claim as stated: in a cycle where
neither roller button is held but the backup button (8-down) is held,
the rollers end the cycle commanded 80 and -80, not zero. -/
theorem rollers_not_zero_counterexample :
    (⟨0, 0, false, false, false, false, false, false, false, true, false, false, 0⟩ :
        Input).btn6Up = false
    ∧ (⟨0, 0, false, false, false, false, false, false, false, true, false, false, 0⟩ :
        Input).btn6Down = false
    ∧ finalCommand RIGHT_ROLLER
        (cycleTrace ⟨0, 0, false⟩
          ⟨0, 0, false, false, false, false, false, false, false, true, false, false, 0⟩)
        = some 80
    ∧ finalCommand LEFT_ROLLER
        (cycleTrace ⟨0, 0, false⟩
          ⟨0, 0, false, false, false, false, false, false, false, true, false, false, 0⟩)
        = some (-80) := by decide

/-- Claim C9 (amended): in every cycle in which neither roller button
nor the backup button (8-down) is held, both roller motors end the cycle
commanded to zero — this holds even when the dropoff macro runs, since
its final roller commands are zero. -/
theorem rollers_zero_when_released (s : LoopState) (inp : Input)
    (h6u : inp.btn6Up = false) (h6d : inp.btn6Down = false) (h8d : inp.btn8Down = false) :
    finalCommand RIGHT_ROLLER (cycleTrace s inp) = some 0
    ∧ finalCommand LEFT_ROLLER (cycleTrace s inp) = some 0 := by
  obtain ⟨f, t, b6u, b6d, b5u, b5d, b7u, b7d, b7l, b8d, b8r, b8u, pv⟩ := inp
  obtain ⟨ip, tc, db⟩ := s
  simp only at h6u h6d h8d
  subst h6u h6d h8d
  have hdrop7 : motorCommands 7 dropOffCubesTrace = [80, 0] := by decide
  have hdrop8 : motorCommands 8 dropOffCubesTrace = [-80, 0] := by decide
  have hlight7 : motorCommands 7 attemptLightTrace = [] := by decide
  have hlight8 : motorCommands 8 attemptLightTrace = [] := by decide
  cases b8r <;> cases b8u <;> cases db <;>
    simp [cycleTrace, cycleStep, driveBlock, rollerBlock, backupBlock, armBlock,
      setMotorPowerTrace, finalCommand, motorCommands_append, motorCommands_motor_cons,
      motorCommands_delay_cons, motorCommands_pin_cons, motorCommands_nil,
      hdrop7, hdrop8, hlight7, hlight8,
      LEFT_MOTOR_FRONT, LEFT_MOTOR_BACK, RIGHT_MOTOR_FRONT, RIGHT_MOTOR_BACK,
      TRAY, RIGHT_ROLLER, LEFT_ROLLER, RIGHT_ARM, LEFT_ARM]

/-- Claim C9 witness: a concrete cycle with no roller or backup button
held ends with both rollers at zero. -/
theorem rollers_zero_when_released_witness :
    (⟨5, 5, false, false, true, false, false, false, false, false, false, false, 9⟩ :
        Input).btn6Up = false
    ∧ (⟨5, 5, false, false, true, false, false, false, false, false, false, false, 9⟩ :
        Input).btn6Down = false
    ∧ (⟨5, 5, false, false, true, false, false, false, false, false, false, false, 9⟩ :
        Input).btn8Down = false
    ∧ (finalCommand RIGHT_ROLLER
        (cycleTrace ⟨7, 2, true⟩
          ⟨5, 5, false, false, true, false, false, false, false, false, false, false, 9⟩)
        = some 0
      ∧ finalCommand LEFT_ROLLER
        (cycleTrace ⟨7, 2, true⟩
          ⟨5, 5, false, false, true, false, false, false, false, false, false, false, 9⟩)
        = some 0) :=
  ⟨rfl, rfl, rfl,
    rollers_zero_when_released ⟨7, 2, true⟩
      ⟨5, 5, false, false, true, false, false, false, false, false, false, false, 9⟩
      rfl rfl rfl⟩

/-- Claim C10: in any cycle in which the arm reset button is pressed,
the power written to both arm motors is still computed from the desired
angle as it stood before the reset (after the up/down nudge of the same
cycle), and the reset to `ARM_LOWER_BOUND` only reaches the stored state
for the following cycle. -/
theorem arm_reset_after_motor_write (s : LoopState) (inp : Input)
    (h : inp.btn7Left = true) :
    motorCommands RIGHT_ARM (cycleTrace s inp) =
      [proportional (armNudge inp.btn7Up inp.btn7Down s.idealLiftPos) inp.pot]
    ∧ motorCommands LEFT_ARM (cycleTrace s inp) =
      [proportional (armNudge inp.btn7Up inp.btn7Down s.idealLiftPos) inp.pot]
    ∧ (cycleStep s inp).1.idealLiftPos = ARM_LOWER_BOUND := by
  obtain ⟨f, t, b6u, b6d, b5u, b5d, b7u, b7d, b7l, b8d, b8r, b8u, pv⟩ := inp
  obtain ⟨ip, tc, db⟩ := s
  simp only at h
  subst h
  have hdrop9 : motorCommands 9 dropOffCubesTrace = [] := by decide
  have hdrop10 : motorCommands 10 dropOffCubesTrace = [] := by decide
  have hlight9 : motorCommands 9 attemptLightTrace = [] := by decide
  have hlight10 : motorCommands 10 attemptLightTrace = [] := by decide
  cases b6u <;> cases b6d <;> cases b8d <;> cases b8r <;> cases b8u <;> cases db <;>
    simp [cycleTrace, cycleStep, driveBlock, rollerBlock, backupBlock, armBlock,
      setMotorPowerTrace, motorCommands_append, motorCommands_motor_cons,
      motorCommands_delay_cons, motorCommands_pin_cons, motorCommands_nil,
      hdrop9, hdrop10, hlight9, hlight10,
      LEFT_MOTOR_FRONT, LEFT_MOTOR_BACK, RIGHT_MOTOR_FRONT, RIGHT_MOTOR_BACK,
      TRAY, RIGHT_ROLLER, LEFT_ROLLER, RIGHT_ARM, LEFT_ARM]

/-- Claim C10 witness: a concrete cycle with the reset button pressed. -/
theorem arm_reset_after_motor_write_witness :
    (⟨0, 0, false, false, false, false, false, false, true, false, false, false, 37⟩ :
        Input).btn7Left = true
    ∧ (motorCommands RIGHT_ARM
        (cycleTrace ⟨100, 0, false⟩
          ⟨0, 0, false, false, false, false, false, false, true, false, false, false, 37⟩) =
        [proportional (armNudge false false 100) 37]
      ∧ motorCommands LEFT_ARM
        (cycleTrace ⟨100, 0, false⟩
          ⟨0, 0, false, false, false, false, false, false, true, false, false, false, 37⟩) =
        [proportional (armNudge false false 100) 37]
      ∧ (cycleStep ⟨100, 0, false⟩
          ⟨0, 0, false, false, false, false, false, false, true, false, false, false, 37⟩).1.idealLiftPos
        = ARM_LOWER_BOUND) :=
  ⟨rfl,
    arm_reset_after_motor_write ⟨100, 0, false⟩
      ⟨0, 0, false, false, false, false, false, false, true, false, false, false, 37⟩ rfl⟩

end Cortex
